import Mathlib

/-!
Shallow embedding of the websocket-client library (src/lib.rs): a
dual-backend WebSocket client facade.  The bridged (wasm) backend keeps
four shared cells (pending queue, inbound buffer, disconnected flag,
errored flag) mutated by JavaScript callbacks; the native backend wraps a
blocking socket with non-blocking reads.  The foreign (JS) side visible
to the Rust code is modelled as a `Bridge` record: the WebSocket
ready-state, the messages delivered through `socket.send`, and the
console log.
-/

/-- Messages exchanged over the socket (`SocketMessage` in lib.rs). -/
inductive SocketMessage where
  | text (data : String)
  | binary (data : List Nat)
deriving DecidableEq, Repr

/-- The error string both backends use for terminal failures
("Socket disconnected or there's been an error"). -/
def terminalMsg : String := "Socket disconnected or there's been an error"

namespace Wasm

/-- `SocketState` (wasm backend): the four `Rc<RefCell<_>>` cells shared
between the handle and the JS callbacks. -/
structure SocketState where
  queued : List SocketMessage
  received : List SocketMessage
  disconnected : Bool
  error : Bool
deriving DecidableEq, Repr

/-- The foreign side observable from the Rust code: the WebSocket
ready-state (0 connecting, 1 open, 2 closing, 3 closed), the messages
delivered so far via `socket.send`, and the console log. -/
structure Bridge where
  readyState : Nat
  sent : List SocketMessage
  log : List String
deriving DecidableEq, Repr

/-- The `get_queued` closure: drains the pending queue and returns its
prior contents in order. -/
def get_queued (s : SocketState) : List SocketMessage × SocketState :=
  (s.queued, { s with queued := [] })

/-- The `onopen` JS handler: calls `get_queued` and sends each queued
message through the socket in order. -/
def onopen (s : SocketState) (b : Bridge) : SocketState × Bridge :=
  let qs := get_queued s
  (qs.2, { b with sent := b.sent ++ qs.1 })

/-- The `add_received_text` closure: appends a text message to the
inbound buffer. -/
def add_received_text (msg : String) (s : SocketState) : SocketState :=
  { s with received := s.received ++ [SocketMessage.text msg] }

/-- The `add_received_binary` closure: appends a binary message to the
inbound buffer. -/
def add_received_binary (msg : List Nat) (s : SocketState) : SocketState :=
  { s with received := s.received ++ [SocketMessage.binary msg] }

/-- The `set_disconnected` closure: sets the disconnected flag. -/
def set_disconnected (s : SocketState) : SocketState :=
  { s with disconnected := true }

/-- The `set_error` closure: sets the errored flag. -/
def set_error (s : SocketState) : SocketState :=
  { s with error := true }

/-- The `onmessage` JS handler: classifies the payload by the transport's
framing (ArrayBuffer versus string) and appends to the inbound buffer. -/
def onmessage (m : SocketMessage) (s : SocketState) : SocketState :=
  match m with
  | SocketMessage.text t => add_received_text t s
  | SocketMessage.binary d => add_received_binary d s

/-- The `onerror` JS handler: logs and calls `set_error`. -/
def onerror (s : SocketState) (b : Bridge) : SocketState × Bridge :=
  (set_error s, { b with log := b.log ++ ["Socket error"] })

/-- The `onclose` JS handler: logs and calls `set_disconnected`. -/
def onclose (s : SocketState) (b : Bridge) : SocketState × Bridge :=
  (set_disconnected s, { b with log := b.log ++ ["Socket closed"] })

/-- `Socket::send` (wasm): if the ready-state is closing (2) or closed
(3) a diagnostic is logged; then, if the ready-state is open (1) the
message is sent through the bridge, otherwise it is pushed onto the
pending queue; the call always returns `Ok(())`. -/
def send (data : String) (s : SocketState) (b : Bridge) :
    Except String Unit × SocketState × Bridge :=
  let b1 := if b.readyState == 2 || b.readyState == 3 then
    { b with log := b.log ++ ["Error: socket already closed!"] } else b
  let ready := b.readyState == 1
  if ready then
    (Except.ok (), s, { b1 with sent := b1.sent ++ [SocketMessage.text data] })
  else
    (Except.ok (), { s with queued := s.queued ++ [SocketMessage.text data] }, b1)

/-- `Socket::send_binary` (wasm): identical structure to `send` with a
binary payload. -/
def send_binary (data : List Nat) (s : SocketState) (b : Bridge) :
    Except String Unit × SocketState × Bridge :=
  let b1 := if b.readyState == 2 || b.readyState == 3 then
    { b with log := b.log ++ ["Error: socket already closed!"] } else b
  let ready := b.readyState == 1
  if ready then
    (Except.ok (), s, { b1 with sent := b1.sent ++ [SocketMessage.binary data] })
  else
    (Except.ok (), { s with queued := s.queued ++ [SocketMessage.binary data] }, b1)

/-- `Socket::recv_all` (wasm): fails while either terminal flag is set,
otherwise drains and returns the whole inbound buffer. -/
def recv_all (s : SocketState) : Except String (List SocketMessage) × SocketState :=
  if s.disconnected || s.error then
    (Except.error terminalMsg, s)
  else
    (Except.ok s.received, { s with received := [] })

/-- One step on the wasm socket: a caller operation or a JS callback. -/
inductive Op where
  | sendText (data : String)
  | sendBinary (data : List Nat)
  | openEvt
  | messageEvt (m : SocketMessage)
  | errorEvt
  | closeEvt
  | recvAll
deriving DecidableEq, Repr

/-- Apply one operation to the shared state and the bridge (the `Result`
value returned to the caller is dropped here). -/
def applyOp : Op → SocketState → Bridge → SocketState × Bridge
  | Op.sendText d, s, b => (send d s b).2
  | Op.sendBinary d, s, b => (send_binary d s b).2
  | Op.openEvt, s, b => onopen s b
  | Op.messageEvt m, s, b => (onmessage m s, b)
  | Op.errorEvt, s, b => onerror s b
  | Op.closeEvt, s, b => onclose s b
  | Op.recvAll, s, b => ((recv_all s).2, b)

/-- A send call issued by the caller: a text or a binary payload. -/
inductive SendCall where
  | text (data : String)
  | binary (data : List Nat)
deriving DecidableEq, Repr

/-- The message a send call carries. -/
def SendCall.msg : SendCall → SocketMessage
  | SendCall.text d => SocketMessage.text d
  | SendCall.binary d => SocketMessage.binary d

/-- Issue a sequence of `send` / `send_binary` calls in order. -/
def runSends : List SendCall → SocketState → Bridge → SocketState × Bridge
  | [], s, b => (s, b)
  | SendCall.text d :: rest, s, b =>
      runSends rest (send d s b).2.1 (send d s b).2.2
  | SendCall.binary d :: rest, s, b =>
      runSends rest (send_binary d s b).2.1 (send_binary d s b).2.2

end Wasm

namespace Native

/-- `OwnedMessage` of the `websocket` crate, as consumed by the native
`recv_all` loop. -/
inductive OwnedMessage where
  | text (data : String)
  | binary (data : List Nat)
  | ping (data : List Nat)
  | pong (data : List Nat)
  | close
deriving DecidableEq, Repr

/-- What one `recv_message` call in the read loop returns: a decoded
message, an I/O error of kind `WouldBlock`, or any other error. -/
inductive RecvEvent where
  | msg (m : OwnedMessage)
  | wouldBlock
  | otherErr
deriving DecidableEq, Repr

/-- Outcome of the native `recv_all`: a normal return, an error return,
or the `panic!` in the unsupported-message arm. -/
inductive RecvResult where
  | ok (msgs : List SocketMessage)
  | err (e : String)
  | panicked
deriving DecidableEq, Repr

/-- The read loop of `Socket::recv_all` (native).  `events` is the
schedule of what successive `recv_message` calls return, `res` the
accumulator, `sent` the messages written back on the socket (the pong
replies).  An exhausted schedule ends the call the way a would-block
does: with the messages collected so far. -/
def recvLoop : List RecvEvent → List SocketMessage → List OwnedMessage →
    RecvResult × List OwnedMessage
  | [], res, sent => (RecvResult.ok res, sent)
  | RecvEvent.msg (OwnedMessage.text m) :: rest, res, sent =>
      recvLoop rest (res ++ [SocketMessage.text m]) sent
  | RecvEvent.msg (OwnedMessage.binary m) :: rest, res, sent =>
      recvLoop rest (res ++ [SocketMessage.binary m]) sent
  | RecvEvent.msg (OwnedMessage.ping d) :: rest, res, sent =>
      recvLoop rest res (sent ++ [OwnedMessage.pong d])
  | RecvEvent.msg OwnedMessage.close :: _, _, sent =>
      (RecvResult.err terminalMsg, sent)
  | RecvEvent.msg (OwnedMessage.pong _) :: _, _, sent =>
      (RecvResult.panicked, sent)
  | RecvEvent.wouldBlock :: _, res, sent => (RecvResult.ok res, sent)
  | RecvEvent.otherErr :: _, _, sent => (RecvResult.err terminalMsg, sent)

/-- `Socket::recv_all` (native): run the read loop from empty
accumulators. -/
def recv_all (events : List RecvEvent) : RecvResult × List OwnedMessage :=
  recvLoop events [] []

/-- Specification-side description of a successful drain: the text and
binary messages a schedule yields, in order, skipping pings, cut off at
the first event that ends the loop. -/
def collectedMsgs : List RecvEvent → List SocketMessage
  | RecvEvent.msg (OwnedMessage.text m) :: rest =>
      SocketMessage.text m :: collectedMsgs rest
  | RecvEvent.msg (OwnedMessage.binary m) :: rest =>
      SocketMessage.binary m :: collectedMsgs rest
  | RecvEvent.msg (OwnedMessage.ping _) :: rest => collectedMsgs rest
  | _ => []

end Native

/-- Normal form of `Wasm.send`: one case per ready-state class. -/
theorem Wasm.send_eq (d : String) (s : Wasm.SocketState) (b : Wasm.Bridge) :
    Wasm.send d s b =
      if b.readyState = 1 then
        (Except.ok (), s, { b with sent := b.sent ++ [SocketMessage.text d] })
      else if b.readyState = 2 ∨ b.readyState = 3 then
        (Except.ok (), { s with queued := s.queued ++ [SocketMessage.text d] },
         { b with log := b.log ++ ["Error: socket already closed!"] })
      else
        (Except.ok (), { s with queued := s.queued ++ [SocketMessage.text d] }, b) := by
  simp only [Wasm.send]
  by_cases h1 : b.readyState = 1
  · simp [h1]
  · by_cases h2 : b.readyState = 2 ∨ b.readyState = 3
    · rcases h2 with h2 | h2 <;> simp [h1, h2]
    · push_neg at h2
      simp [h1, h2.1, h2.2]

/-- Normal form of `Wasm.send_binary`: one case per ready-state class. -/
theorem Wasm.send_binary_eq (d : List Nat) (s : Wasm.SocketState) (b : Wasm.Bridge) :
    Wasm.send_binary d s b =
      if b.readyState = 1 then
        (Except.ok (), s, { b with sent := b.sent ++ [SocketMessage.binary d] })
      else if b.readyState = 2 ∨ b.readyState = 3 then
        (Except.ok (), { s with queued := s.queued ++ [SocketMessage.binary d] },
         { b with log := b.log ++ ["Error: socket already closed!"] })
      else
        (Except.ok (), { s with queued := s.queued ++ [SocketMessage.binary d] }, b) := by
  simp only [Wasm.send_binary]
  by_cases h1 : b.readyState = 1
  · simp [h1]
  · by_cases h2 : b.readyState = 2 ∨ b.readyState = 3
    · rcases h2 with h2 | h2 <;> simp [h1, h2]
    · push_neg at h2
      simp [h1, h2.1, h2.2]

/-- C1: once the disconnected or errored flag is true, no operation of the
bridged backend clears it, and `recv_all` fails with the terminal error
whatever the inbound buffer holds. -/
theorem C1_terminal_stickiness (op : Wasm.Op) (s : Wasm.SocketState) (b : Wasm.Bridge) :
    (s.disconnected = true → ((Wasm.applyOp op s b).1).disconnected = true) ∧
    (s.error = true → ((Wasm.applyOp op s b).1).error = true) ∧
    (s.disconnected = true ∨ s.error = true →
      (Wasm.recv_all s).1 = Except.error terminalMsg) := by
  refine ⟨?_, ?_, ?_⟩
  · intro h
    cases op with
    | sendText d => simp only [Wasm.applyOp, Wasm.send]; split <;> simp [h]
    | sendBinary d => simp only [Wasm.applyOp, Wasm.send_binary]; split <;> simp [h]
    | openEvt => simpa [Wasm.applyOp, Wasm.onopen, Wasm.get_queued] using h
    | messageEvt m =>
        cases m <;>
          simpa [Wasm.applyOp, Wasm.onmessage, Wasm.add_received_text,
            Wasm.add_received_binary] using h
    | errorEvt => simpa [Wasm.applyOp, Wasm.onerror, Wasm.set_error] using h
    | closeEvt => simp [Wasm.applyOp, Wasm.onclose, Wasm.set_disconnected]
    | recvAll =>
        simp only [Wasm.applyOp, Wasm.recv_all]
        split <;> simp [h]
  · intro h
    cases op with
    | sendText d => simp only [Wasm.applyOp, Wasm.send]; split <;> simp [h]
    | sendBinary d => simp only [Wasm.applyOp, Wasm.send_binary]; split <;> simp [h]
    | openEvt => simpa [Wasm.applyOp, Wasm.onopen, Wasm.get_queued] using h
    | messageEvt m =>
        cases m <;>
          simpa [Wasm.applyOp, Wasm.onmessage, Wasm.add_received_text,
            Wasm.add_received_binary] using h
    | errorEvt => simp [Wasm.applyOp, Wasm.onerror, Wasm.set_error]
    | closeEvt => simpa [Wasm.applyOp, Wasm.onclose, Wasm.set_disconnected] using h
    | recvAll =>
        simp only [Wasm.applyOp, Wasm.recv_all]
        split <;> simp [h]
  · intro h
    rcases h with h | h <;> simp [Wasm.recv_all, h]

/-- C1 witness: with the disconnected flag set and a message still
buffered, the flag survives a `recv_all` step and the call errors. -/
theorem C1_witness :
    ((Wasm.applyOp Wasm.Op.recvAll
        ⟨[], [SocketMessage.text "x"], true, false⟩ ⟨1, [], []⟩).1).disconnected = true ∧
    (Wasm.recv_all ⟨[], [SocketMessage.text "x"], true, false⟩).1
      = Except.error terminalMsg := by
  have h := C1_terminal_stickiness Wasm.Op.recvAll
    ⟨[], [SocketMessage.text "x"], true, false⟩ ⟨1, [], []⟩
  exact ⟨h.1 rfl, h.2.2 (Or.inl rfl)⟩

/-- C3: when neither flag is set, `recv_all` returns the whole inbound
buffer in arrival order and empties it, so an immediate second call
returns the empty sequence. -/
theorem C3_drain_complete (s : Wasm.SocketState)
    (h1 : s.disconnected = false) (h2 : s.error = false) :
    Wasm.recv_all s = (Except.ok s.received, { s with received := [] }) ∧
    (Wasm.recv_all ((Wasm.recv_all s).2)).1 = Except.ok [] := by
  simp [Wasm.recv_all, h1, h2]

/-- C3 witness: a buffer holding two messages is returned whole and a
second immediate drain is empty. -/
theorem C3_witness :
    Wasm.recv_all ⟨[], [SocketMessage.binary [1, 2], SocketMessage.text "hi"], false, false⟩
      = (Except.ok [SocketMessage.binary [1, 2], SocketMessage.text "hi"],
         ⟨[], [], false, false⟩) ∧
    (Wasm.recv_all ((Wasm.recv_all
        ⟨[], [SocketMessage.binary [1, 2], SocketMessage.text "hi"], false, false⟩).2)).1
      = Except.ok [] := by
  have h := C3_drain_complete
    ⟨[], [SocketMessage.binary [1, 2], SocketMessage.text "hi"], false, false⟩ rfl rfl
  exact h

/-- C6: `send` and `send_binary` always return `Ok(())`; when the
ready-state is open the message goes straight to the transport and the
state is untouched, otherwise it is appended to the pending queue and the
transport receives nothing. -/
theorem C6_send_always_succeeds (d : String) (d2 : List Nat)
    (s : Wasm.SocketState) (b : Wasm.Bridge) :
    (Wasm.send d s b).1 = Except.ok () ∧
    (Wasm.send_binary d2 s b).1 = Except.ok () ∧
    (if b.readyState = 1 then
      (Wasm.send d s b).2.2.sent = b.sent ++ [SocketMessage.text d] ∧
      (Wasm.send d s b).2.1 = s ∧
      (Wasm.send_binary d2 s b).2.2.sent = b.sent ++ [SocketMessage.binary d2] ∧
      (Wasm.send_binary d2 s b).2.1 = s
    else
      (Wasm.send d s b).2.2.sent = b.sent ∧
      (Wasm.send d s b).2.1.queued = s.queued ++ [SocketMessage.text d] ∧
      (Wasm.send_binary d2 s b).2.2.sent = b.sent ∧
      (Wasm.send_binary d2 s b).2.1.queued = s.queued ++ [SocketMessage.binary d2]) := by
  refine ⟨?_, ?_, ?_⟩
  · rw [Wasm.send_eq]; split_ifs <;> rfl
  · rw [Wasm.send_binary_eq]; split_ifs <;> rfl
  · by_cases h : b.readyState = 1
    · simp [Wasm.send_eq, Wasm.send_binary_eq, h]
    · by_cases h2 : b.readyState = 2 ∨ b.readyState = 3 <;>
        simp [Wasm.send_eq, Wasm.send_binary_eq, h, h2]

/-- C10: when a terminal flag is set, `recv_all` returns the terminal
error and the state — queue, buffer and both flags — is returned exactly
as it was. -/
theorem C10_failed_recv_preserves_state (s : Wasm.SocketState)
    (h : s.disconnected = true ∨ s.error = true) :
    Wasm.recv_all s = (Except.error terminalMsg, s) := by
  rcases h with h | h <;> simp [Wasm.recv_all, h]

/-- C10 witness: with the errored flag set, a buffered message and a
queued message survive the failed `recv_all` untouched. -/
theorem C10_witness :
    Wasm.recv_all ⟨[SocketMessage.text "q"], [SocketMessage.binary [3]], false, true⟩
      = (Except.error terminalMsg,
         ⟨[SocketMessage.text "q"], [SocketMessage.binary [3]], false, true⟩) := by
  exact C10_failed_recv_preserves_state
    ⟨[SocketMessage.text "q"], [SocketMessage.binary [3]], false, true⟩ (Or.inr rfl)

/-- While the socket is still connecting (ready-state 0), a run of send
calls only appends the corresponding messages to the pending queue, in
call order, and leaves the bridge untouched. -/
theorem Wasm.runSends_connecting (calls : List Wasm.SendCall) (s : Wasm.SocketState)
    (b : Wasm.Bridge) (h : b.readyState = 0) :
    Wasm.runSends calls s b
      = ({ s with queued := s.queued ++ calls.map Wasm.SendCall.msg }, b) := by
  induction calls generalizing s with
  | nil => simp [Wasm.runSends]
  | cons c rest ih =>
    cases c with
    | text d =>
      simp only [Wasm.runSends, Wasm.send_eq, h]
      norm_num
      rw [ih]
      simp [Wasm.SendCall.msg]
    | binary d =>
      simp only [Wasm.runSends, Wasm.send_binary_eq, h]
      norm_num
      rw [ih]
      simp [Wasm.SendCall.msg]

/-- C2: messages sent while the transport has not yet opened are queued
in call order; the `onopen` handler then delivers exactly that sequence
to the transport and leaves the pending queue empty. -/
theorem C2_preopen_fifo (calls : List Wasm.SendCall) (s : Wasm.SocketState)
    (b : Wasm.Bridge) (hconn : b.readyState = 0) (hq : s.queued = []) :
    (Wasm.onopen (Wasm.runSends calls s b).1 (Wasm.runSends calls s b).2).2.sent
      = b.sent ++ calls.map Wasm.SendCall.msg ∧
    (Wasm.onopen (Wasm.runSends calls s b).1 (Wasm.runSends calls s b).2).1.queued
      = [] := by
  rw [Wasm.runSends_connecting calls s b hconn]
  simp [Wasm.onopen, Wasm.get_queued, hq]

/-- C2 witness: two pre-open sends (one text, one binary) are flushed by
`onopen` in call order and the queue ends empty. -/
theorem C2_witness :
    (Wasm.onopen
        (Wasm.runSends [Wasm.SendCall.text "a", Wasm.SendCall.binary [1, 2]]
          ⟨[], [], false, false⟩ ⟨0, [], []⟩).1
        (Wasm.runSends [Wasm.SendCall.text "a", Wasm.SendCall.binary [1, 2]]
          ⟨[], [], false, false⟩ ⟨0, [], []⟩).2).2.sent
      = [SocketMessage.text "a", SocketMessage.binary [1, 2]] ∧
    (Wasm.onopen
        (Wasm.runSends [Wasm.SendCall.text "a", Wasm.SendCall.binary [1, 2]]
          ⟨[], [], false, false⟩ ⟨0, [], []⟩).1
        (Wasm.runSends [Wasm.SendCall.text "a", Wasm.SendCall.binary [1, 2]]
          ⟨[], [], false, false⟩ ⟨0, [], []⟩).2).1.queued
      = [] := by
  have h := C2_preopen_fifo [Wasm.SendCall.text "a", Wasm.SendCall.binary [1, 2]]
    ⟨[], [], false, false⟩ ⟨0, [], []⟩ rfl rfl
  simpa using h

/-- C4 counterexample: sending "hello" while the foreign socket reports
ready-state 2 (closing) delivers nothing through the bridge and puts the
message on the pending queue — the claim says the message is delivered
immediately and is not queued. -/
theorem C4_counterexample :
    (Wasm.send "hello" ⟨[], [], false, false⟩ ⟨2, [], []⟩).2.2.sent = [] ∧
    (Wasm.send "hello" ⟨[], [], false, false⟩ ⟨2, [], []⟩).2.2.sent
      ≠ [SocketMessage.text "hello"] ∧
    (Wasm.send "hello" ⟨[], [], false, false⟩ ⟨2, [], []⟩).2.1.queued
      = [SocketMessage.text "hello"] ∧
    (Wasm.send "hello" ⟨[], [], false, false⟩ ⟨2, [], []⟩).2.2.log
      = ["Error: socket already closed!"] := by
  refine ⟨rfl, ?_, rfl, rfl⟩
  simp [Wasm.send]

/-- C4 (amended): when the foreign socket reports closing (2) or closed
(3), `send` and `send_binary` log the diagnostic, deliver nothing through
the bridge, append the message to the pending queue, and return success. -/
theorem C4_amended_logs_and_queues (d : String) (d2 : List Nat)
    (s : Wasm.SocketState) (b : Wasm.Bridge)
    (h : b.readyState = 2 ∨ b.readyState = 3) :
    (Wasm.send d s b).1 = Except.ok () ∧
    (Wasm.send d s b).2.2.sent = b.sent ∧
    (Wasm.send d s b).2.2.log = b.log ++ ["Error: socket already closed!"] ∧
    (Wasm.send d s b).2.1.queued = s.queued ++ [SocketMessage.text d] ∧
    (Wasm.send_binary d2 s b).2.2.sent = b.sent ∧
    (Wasm.send_binary d2 s b).2.2.log = b.log ++ ["Error: socket already closed!"] ∧
    (Wasm.send_binary d2 s b).2.1.queued = s.queued ++ [SocketMessage.binary d2] := by
  have h1 : b.readyState ≠ 1 := by rcases h with h | h <;> omega
  simp [Wasm.send_eq, Wasm.send_binary_eq, h, h1]

/-- C4 witness: a binary send at ready-state 3 (closed) logs, queues and
succeeds. -/
theorem C4_witness :
    (Wasm.send_binary [9] ⟨[], [], false, false⟩ ⟨3, [], []⟩).2.2.sent = [] ∧
    (Wasm.send_binary [9] ⟨[], [], false, false⟩ ⟨3, [], []⟩).2.2.log
      = ["Error: socket already closed!"] ∧
    (Wasm.send_binary [9] ⟨[], [], false, false⟩ ⟨3, [], []⟩).2.1.queued
      = [SocketMessage.binary [9]] := by
  have h := C4_amended_logs_and_queues "x" [9] ⟨[], [], false, false⟩ ⟨3, [], []⟩
    (Or.inr rfl)
  exact ⟨h.2.2.2.2.1, h.2.2.2.2.2.1, h.2.2.2.2.2.2⟩

/-- C5 counterexample: the queue is drained at the open transition, but
after the socket later reaches ready-state 3 (closed, which is past the
open transition) a `send` adds a new entry to the pending queue — the
claim says no operation ever adds to it after the open transition. -/
theorem C5_counterexample :
    (Wasm.onopen ⟨[SocketMessage.text "early"], [], false, false⟩ ⟨1, [], []⟩).1.queued
      = [] ∧
    (Wasm.onopen ⟨[SocketMessage.text "early"], [], false, false⟩ ⟨1, [], []⟩).2.sent
      = [SocketMessage.text "early"] ∧
    (Wasm.send "late"
        (Wasm.onopen ⟨[SocketMessage.text "early"], [], false, false⟩ ⟨1, [], []⟩).1
        ⟨3, [SocketMessage.text "early"], []⟩).2.1.queued
      = [SocketMessage.text "late"] := by
  exact ⟨rfl, rfl, rfl⟩

/-- C5 (amended): the `onopen` handler drains the pending queue
completely and in order into the transport; every other operation either
leaves the queue unchanged or — only when the ready-state is not open,
which includes the closing/closed states reached after the open
transition — appends one message to it. -/
theorem C5_queue_discipline (op : Wasm.Op) (s : Wasm.SocketState) (b : Wasm.Bridge) :
    ((Wasm.applyOp Wasm.Op.openEvt s b).1.queued = [] ∧
     (Wasm.applyOp Wasm.Op.openEvt s b).2.sent = b.sent ++ s.queued) ∧
    (op = Wasm.Op.openEvt ∨
     (Wasm.applyOp op s b).1.queued = s.queued ∨
     (b.readyState ≠ 1 ∧
       ∃ m, (Wasm.applyOp op s b).1.queued = s.queued ++ [m])) := by
  constructor
  · exact ⟨rfl, rfl⟩
  · cases op with
    | sendText d =>
      by_cases h : b.readyState = 1
      · right; left; simp [Wasm.applyOp, Wasm.send_eq, h]
      · right; right
        refine ⟨h, SocketMessage.text d, ?_⟩
        simp only [Wasm.applyOp, Wasm.send_eq, if_neg h]
        split <;> rfl
    | sendBinary d =>
      by_cases h : b.readyState = 1
      · right; left; simp [Wasm.applyOp, Wasm.send_binary_eq, h]
      · right; right
        refine ⟨h, SocketMessage.binary d, ?_⟩
        simp only [Wasm.applyOp, Wasm.send_binary_eq, if_neg h]
        split <;> rfl
    | openEvt => left; rfl
    | messageEvt m =>
      right; left
      cases m <;>
        simp [Wasm.applyOp, Wasm.onmessage, Wasm.add_received_text,
          Wasm.add_received_binary]
    | errorEvt => right; left; rfl
    | closeEvt => right; left; rfl
    | recvAll =>
      right; left
      simp only [Wasm.applyOp, Wasm.recv_all]
      split <;> rfl

/-- Any successful run of the native read loop returns the accumulator
followed by the text/binary messages of the schedule, with pings
skipped. -/
theorem Native.recvLoop_ok_collected (events : List Native.RecvEvent) :
    ∀ res sent msgs sent2,
      Native.recvLoop events res sent = (Native.RecvResult.ok msgs, sent2) →
      msgs = res ++ Native.collectedMsgs events := by
  induction events with
  | nil =>
    intro res sent msgs sent2 h
    simp only [Native.recvLoop, Prod.mk.injEq, Native.RecvResult.ok.injEq] at h
    simp [Native.collectedMsgs, h.1]
  | cons e rest ih =>
    intro res sent msgs sent2 h
    cases e with
    | msg m =>
      cases m with
      | text t =>
        simp only [Native.recvLoop] at h
        have := ih (res ++ [SocketMessage.text t]) sent msgs sent2 h
        simp [Native.collectedMsgs, this]
      | binary d =>
        simp only [Native.recvLoop] at h
        have := ih (res ++ [SocketMessage.binary d]) sent msgs sent2 h
        simp [Native.collectedMsgs, this]
      | ping d =>
        simp only [Native.recvLoop] at h
        have := ih res (sent ++ [Native.OwnedMessage.pong d]) msgs sent2 h
        simp [Native.collectedMsgs, this]
      | pong d => simp [Native.recvLoop] at h
      | close => simp [Native.recvLoop] at h
    | wouldBlock =>
      simp only [Native.recvLoop, Prod.mk.injEq, Native.RecvResult.ok.injEq] at h
      simp [Native.collectedMsgs, h.1]
    | otherErr => simp [Native.recvLoop] at h

/-- A schedule with no would-block-distinct errors, no close frame and no
unsupported frame makes the loop end normally with all data messages. -/
theorem Native.recvLoop_clean_ok (events : List Native.RecvEvent)
    (h1 : Native.RecvEvent.otherErr ∉ events)
    (h2 : Native.RecvEvent.msg Native.OwnedMessage.close ∉ events)
    (h3 : ∀ d, Native.RecvEvent.msg (Native.OwnedMessage.pong d) ∉ events) :
    ∀ res sent, (Native.recvLoop events res sent).1
      = Native.RecvResult.ok (res ++ Native.collectedMsgs events) := by
  induction events with
  | nil => intro res sent; simp [Native.recvLoop, Native.collectedMsgs]
  | cons e rest ih =>
    intro res sent
    have h1r : Native.RecvEvent.otherErr ∉ rest := fun hm => h1 (List.mem_cons_of_mem _ hm)
    have h2r : Native.RecvEvent.msg Native.OwnedMessage.close ∉ rest :=
      fun hm => h2 (List.mem_cons_of_mem _ hm)
    have h3r : ∀ d, Native.RecvEvent.msg (Native.OwnedMessage.pong d) ∉ rest :=
      fun d hm => h3 d (List.mem_cons_of_mem _ hm)
    cases e with
    | msg m =>
      cases m with
      | text t =>
        rw [show Native.recvLoop (Native.RecvEvent.msg (Native.OwnedMessage.text t) :: rest)
            res sent = Native.recvLoop rest (res ++ [SocketMessage.text t]) sent from rfl]
        rw [ih h1r h2r h3r]
        simp [Native.collectedMsgs]
      | binary d =>
        rw [show Native.recvLoop (Native.RecvEvent.msg (Native.OwnedMessage.binary d) :: rest)
            res sent = Native.recvLoop rest (res ++ [SocketMessage.binary d]) sent from rfl]
        rw [ih h1r h2r h3r]
        simp [Native.collectedMsgs]
      | ping d =>
        rw [show Native.recvLoop (Native.RecvEvent.msg (Native.OwnedMessage.ping d) :: rest)
            res sent
            = Native.recvLoop rest res (sent ++ [Native.OwnedMessage.pong d]) from rfl]
        rw [ih h1r h2r h3r]
        simp [Native.collectedMsgs]
      | pong d => exact absurd (List.mem_cons_self _ _) (h3 d)
      | close => exact absurd (List.mem_cons_self _ _) h2
    | wouldBlock => simp [Native.recvLoop, Native.collectedMsgs]
    | otherErr => exact absurd (List.mem_cons_self _ _) h1

/-- C7: a ping read by the native loop is answered at once by a pong
carrying the same payload, the loop continues, and a successful
`recv_all` returns only the text/binary messages — never a ping. -/
theorem C7_ping_transparency (d : List Nat) (rest events : List Native.RecvEvent)
    (res msgs : List SocketMessage) (sent pongs : List Native.OwnedMessage) :
    Native.recvLoop (Native.RecvEvent.msg (Native.OwnedMessage.ping d) :: rest) res sent
      = Native.recvLoop rest res (sent ++ [Native.OwnedMessage.pong d]) ∧
    (Native.recv_all events = (Native.RecvResult.ok msgs, pongs) →
      msgs = Native.collectedMsgs events) := by
  refine ⟨rfl, fun h => ?_⟩
  have := Native.recvLoop_ok_collected events [] [] msgs pongs h
  simpa using this

/-- C7 witness: a schedule reading ping [1] then text "a" replies with
pong [1] and returns only the text message. -/
theorem C7_witness :
    Native.recvLoop [Native.RecvEvent.msg (Native.OwnedMessage.ping [1]),
        Native.RecvEvent.msg (Native.OwnedMessage.text "a")] [] []
      = Native.recvLoop [Native.RecvEvent.msg (Native.OwnedMessage.text "a")] []
          ([] ++ [Native.OwnedMessage.pong [1]]) ∧
    [SocketMessage.text "a"] = Native.collectedMsgs
        [Native.RecvEvent.msg (Native.OwnedMessage.ping [1]),
         Native.RecvEvent.msg (Native.OwnedMessage.text "a")] := by
  have h := C7_ping_transparency [1] [Native.RecvEvent.msg (Native.OwnedMessage.text "a")]
    [Native.RecvEvent.msg (Native.OwnedMessage.ping [1]),
     Native.RecvEvent.msg (Native.OwnedMessage.text "a")]
    [] [SocketMessage.text "a"] [] [Native.OwnedMessage.pong [1]]
  exact ⟨h.1, h.2 (by decide)⟩

/-- C8: a would-block read ends the native loop at once with success and
the messages collected so far; an other read error or a close frame ends
it with the terminal error; and a schedule free of error, close and
unsupported frames always yields a successful `recv_all`. -/
theorem C8_would_block_absorbed (rest events : List Native.RecvEvent)
    (res : List SocketMessage) (sent : List Native.OwnedMessage)
    (h1 : Native.RecvEvent.otherErr ∉ events)
    (h2 : Native.RecvEvent.msg Native.OwnedMessage.close ∉ events)
    (h3 : ∀ d, Native.RecvEvent.msg (Native.OwnedMessage.pong d) ∉ events) :
    Native.recvLoop (Native.RecvEvent.wouldBlock :: rest) res sent
      = (Native.RecvResult.ok res, sent) ∧
    Native.recvLoop (Native.RecvEvent.otherErr :: rest) res sent
      = (Native.RecvResult.err terminalMsg, sent) ∧
    Native.recvLoop (Native.RecvEvent.msg Native.OwnedMessage.close :: rest) res sent
      = (Native.RecvResult.err terminalMsg, sent) ∧
    (Native.recv_all events).1 = Native.RecvResult.ok (Native.collectedMsgs events) := by
  refine ⟨rfl, rfl, rfl, ?_⟩
  have := Native.recvLoop_clean_ok events h1 h2 h3 [] []
  simpa [Native.recv_all] using this

/-- C8 witness: with one binary message followed by a would-block, the
call succeeds with exactly that message. -/
theorem C8_witness :
    Native.recvLoop [Native.RecvEvent.wouldBlock] [SocketMessage.text "got"] []
      = (Native.RecvResult.ok [SocketMessage.text "got"], []) ∧
    (Native.recv_all [Native.RecvEvent.msg (Native.OwnedMessage.binary [5]),
        Native.RecvEvent.wouldBlock]).1
      = Native.RecvResult.ok (Native.collectedMsgs
          [Native.RecvEvent.msg (Native.OwnedMessage.binary [5]),
           Native.RecvEvent.wouldBlock]) := by
  have h := C8_would_block_absorbed []
    [Native.RecvEvent.msg (Native.OwnedMessage.binary [5]), Native.RecvEvent.wouldBlock]
    [SocketMessage.text "got"] [] (by decide) (by decide)
    (by intro d hm; simp at hm)
  exact ⟨h.1, h.2.2.2⟩

/-- C9: a frame outside text/binary/ping/close (a pong, the only other
`OwnedMessage` variant) makes the native `recv_all` panic instead of
returning a value, and that branch is reachable from a fresh call. -/
theorem C9_unsupported_panics (d : List Nat) (rest : List Native.RecvEvent)
    (res : List SocketMessage) (sent : List Native.OwnedMessage) :
    Native.recvLoop (Native.RecvEvent.msg (Native.OwnedMessage.pong d) :: rest) res sent
      = (Native.RecvResult.panicked, sent) ∧
    Native.recv_all [Native.RecvEvent.msg (Native.OwnedMessage.pong [7])]
      = (Native.RecvResult.panicked, []) :=
  ⟨rfl, rfl⟩
